import Mathlib

/-!
# NoisyBird — verification of the gameplay / input-fusion core

Shallow embedding of the NoisyBird repository (src/main.py, src/audio.py,
src/entities.py, src/settings.py).  Python floats are modelled as `ℚ`,
Python ints as `ℤ`/`ℕ`.  `time.time()` values observed inside a single
frame of the play loop are modelled as one `now` value per frame (the
real calls are microseconds apart within one loop body).  The random
draws of a frame (obstacle top height, power-up spawn coin flip, kind,
vertical position) are passed in as oracle inputs.  Keyboard events are
outside the modelled per-frame gameplay step.
-/

/-- Python's `int()` applied to a float: truncation toward zero. -/
def pyTrunc (q : ℚ) : ℤ := if 0 ≤ q then ⌊q⌋ else ⌈q⌉

/-- `clamp` from src/settings.py / src/main.py: `max(a, min(b, v))`. -/
def pyClamp (v a b : ℚ) : ℚ := max a (min b v)

/-- `pygame.Rect.colliderect` on integer rectangles `(x, y, w, h)`:
true iff all four strict inequalities of the rectangle-intersection
test hold (touching edges do not collide). -/
def rectsCollide (ax ay aw ah cx cy cw ch : ℤ) : Bool :=
  decide (ax < cx + cw ∧ ay < cy + ch ∧ cx < ax + aw ∧ cy < ay + ah)

/-- Window width from src/main.py (`WIDTH = 800`). -/
def WIDTH : ℤ := 800

/-- Window height from src/main.py (`HEIGHT = 500`). -/
def HEIGHT : ℤ := 500

/-! ## VolumeSmoother (src/audio.py) -/

/-- `VolumeSmoother` from src/audio.py: a window capacity and the held
raw samples, oldest first. -/
structure VolumeSmoother where
  window : ℕ
  history : List ℚ
deriving Repr, DecidableEq

/-- `VolumeSmoother.__init__`: `self.window = max(1, int(window))`,
empty history. -/
def mkVolumeSmoother (window : ℤ) : VolumeSmoother :=
  ⟨(max 1 window).toNat, []⟩

/-- `VolumeSmoother.add`: append the sample, then pop the oldest element
if the length now exceeds the window. -/
def VolumeSmoother.add (s : VolumeSmoother) (v : ℚ) : VolumeSmoother :=
  let h := s.history ++ [v]
  { s with history := if s.window < h.length then h.drop 1 else h }

/-- `VolumeSmoother.smooth`: arithmetic mean of the held samples,
`0.0` when none are held. -/
def VolumeSmoother.smooth (s : VolumeSmoother) : ℚ :=
  if s.history = [] then 0 else s.history.sum / s.history.length

/-- Feed a sequence of samples through `add`, in order. -/
def VolumeSmoother.addAll (s : VolumeSmoother) (xs : List ℚ) : VolumeSmoother :=
  xs.foldl VolumeSmoother.add s

/-- Arithmetic mean of a list of rationals, `0` for the empty list
(matches `VolumeSmoother.smooth` on the held samples). -/
def listMean (l : List ℚ) : ℚ :=
  if l = [] then 0 else l.sum / l.length

/-! ## Bird (src/main.py class Bird; src/entities.py is identical in the
modelled fields except for the numeric constants, which are kept as
fields) -/

/-- Bird state: position, size, vertical velocity and the physics
constants set in `Bird.__init__`. -/
structure Bird where
  x : ℚ
  y : ℚ
  w : ℤ
  h : ℤ
  vel_y : ℚ
  gravity : ℚ
  jump : ℚ
  max_fall : ℚ
deriving Repr, DecidableEq

/-- `Bird.__init__` from src/main.py: 40×30 image, `vel_y = 0`,
`gravity = 0.5`, `jump = 8.0`, `max_fall = 12.0`. -/
def mkBird (x y : ℚ) : Bird :=
  ⟨x, y, 40, 30, 0, 1/2, 8, 12⟩

/-- `Bird.flap`: set the vertical velocity to `-jump`, unconditionally. -/
def Bird.flap (b : Bird) : Bird :=
  { b with vel_y := -b.jump }

/-- `Bird.step` from src/main.py (= `Bird.update` in src/entities.py):
add gravity to velocity, clamp it, integrate position. -/
def Bird.step (b : Bird) : Bird :=
  let v := pyClamp (b.vel_y + b.gravity) (-b.max_fall) b.max_fall
  { b with vel_y := v, y := b.y + v }

/-- `Bird.is_out` from src/entities.py (src/main.py uses the same test
with `screen_height = HEIGHT`): `y < -h or y > screen_height - h`. -/
def Bird.is_out (b : Bird) (screen_height : ℤ) : Bool :=
  decide (b.y < -(b.h : ℚ) ∨ b.y > (screen_height : ℚ) - (b.h : ℚ))

/-! ## Block — the pipe obstacle (src/main.py class Block;
src/entities.py class Block) -/

/-- Obstacle state: x position (a float once moved), width, top-segment
height, gap height, and the scoring latch `passed`. -/
structure Block where
  x : ℚ
  w : ℤ
  top_h : ℤ
  gap : ℤ
  passed : Bool
deriving Repr, DecidableEq

/-- `Block.move`: translate left by `speed`. -/
def Block.move (b : Block) (speed : ℚ) : Block :=
  { b with x := b.x - speed }

/-- `Block.off_screen` (entities) = `Block.off` (main):
`x + w < -10`. -/
def Block.off_screen (b : Block) : Bool :=
  decide (b.x + (b.w : ℚ) < -10)

/-- `Block.collide_with` from src/entities.py: the bird's truncated
bounding box against the top rect `(x, 0, w, top_h)` and the bottom
rect `(x, top_h + gap, w, int(1e6))`. -/
def Block.collide_with (bl : Block) (b : Bird) : Bool :=
  rectsCollide (pyTrunc b.x) (pyTrunc b.y) b.w b.h
      (pyTrunc bl.x) 0 bl.w bl.top_h ||
  rectsCollide (pyTrunc b.x) (pyTrunc b.y) b.w b.h
      (pyTrunc bl.x) (bl.top_h + bl.gap) bl.w 1000000

/-- `Block.collide` from src/main.py: same test, except the bottom rect
height is `HEIGHT - int(top_h + gap)`. -/
def Block.collide (bl : Block) (b : Bird) : Bool :=
  rectsCollide (pyTrunc b.x) (pyTrunc b.y) b.w b.h
      (pyTrunc bl.x) 0 bl.w bl.top_h ||
  rectsCollide (pyTrunc b.x) (pyTrunc b.y) b.w b.h
      (pyTrunc bl.x) (bl.top_h + bl.gap) bl.w (HEIGHT - (bl.top_h + bl.gap))

/-! ## PowerUp (src/main.py class PowerUp; src/entities.py class PowerUp) -/

/-- Power-up state. -/
structure PowerUp where
  kind : String
  x : ℚ
  y : ℤ
  size : ℤ
  active : Bool
deriving Repr, DecidableEq

/-- `PowerUp.TYPES = ('slow', 'double')`. -/
def PowerUp.TYPES : List String := ["slow", "double"]

/-- `PowerUp.__init__`: an unknown kind string falls back to `'slow'`;
`size = 26`, `active = True`. -/
def mkPowerUp (kind : String) (x : ℚ) (y : ℤ) : PowerUp :=
  ⟨if kind ∈ PowerUp.TYPES then kind else "slow", x, y, 26, true⟩

/-- `PowerUp.move`: translate left; deactivate once `x < -size`. -/
def PowerUp.move (p : PowerUp) (speed : ℚ) : PowerUp :=
  let x' := p.x - speed
  { p with x := x', active := if x' < -(p.size : ℚ) then false else p.active }

/-- The collision test inside `PowerUp.check` from src/main.py:
the power-up's rect `(int(x), y, size, size)` against the bird's
truncated bounding box. -/
def PowerUp.checkCollide (p : PowerUp) (b : Bird) : Bool :=
  rectsCollide (pyTrunc p.x) p.y p.size p.size
      (pyTrunc b.x) (pyTrunc b.y) b.w b.h

/-! ## The per-frame gameplay step of `NoisyBird.play` (src/main.py) -/

/-- The microphone flap decision of src/main.py line 418:
`volume * sensitivity > 1.0`, on the raw latest volume. -/
def micFlapDecision (volume sensitivity : ℚ) : Bool :=
  decide (volume * sensitivity > 1)

/-- The scoring update for one obstacle (src/main.py lines 436-439):
if not yet passed and the trailing edge is left of the bird's x,
latch `passed` and report a scoring event. -/
def scoreBlock (b : Block) (birdX : ℚ) : Block × Bool :=
  if b.passed = false ∧ b.x + (b.w : ℚ) < birdX then
    ({ b with passed := true }, true)
  else
    (b, false)

/-- One frame's action on a single obstacle, seen from the obstacle:
move left by `speed`, then run the scoring update against the bird's x
(src/main.py lines 430, 436-439). -/
def blockFrame (b : Block) (speed birdX : ℚ) : Block × Bool :=
  scoreBlock (b.move speed) birdX

/-- Iterate `blockFrame` over a list of per-frame `(speed, birdX)`
parameters, counting the frames in which the scoring branch fired. -/
def blockRun : Block → List (ℚ × ℚ) → Block × ℕ
  | b, [] => (b, 0)
  | b, p :: rest =>
    let r := blockFrame b p.1 p.2
    let t := blockRun r.1 rest
    (t.1, (if r.2 then 1 else 0) + t.2)

/-- The obstacle loop of one frame (src/main.py lines 429-450):
move each block, stop on a collision (Python `break`; later blocks are
left unmoved), otherwise score it and drop it if off-screen.  Returns
the surviving blocks, the score increment (`pts` per scoring
event), and whether a collision ended the round. -/
def processBlocks : List Block → Bird → ℚ → ℕ → List Block × ℕ × Bool
  | [], _, _, _ => ([], 0, false)
  | b :: rest, bird, speed, pts =>
    let b1 := b.move speed
    if b1.collide bird then
      (b1 :: rest, 0, true)
    else
      let r := scoreBlock b1 bird.x
      let inc : ℕ := if r.2 then pts else 0
      let t := processBlocks rest bird speed pts
      ((if r.1.off_screen then t.1 else r.1 :: t.1), inc + t.2.1, t.2.2)

/-- The power-up effect application of src/main.py lines 456-459:
a `slow` pickup sets `slow_until = now + 4.0`,
any other kind sets `double_until = now + 5.0`.  Returns the new
`(slow_until, double_until)` pair. -/
def applyPowerupEffect (kind : String) (now slow_until double_until : ℚ) :
    ℚ × ℚ :=
  if kind = "slow" then (now + 4, double_until) else (slow_until, now + 5)

/-- The power-up loop of one frame (src/main.py lines 451-470):
move each power-up; inactive ones are removed; an active one colliding
with the bird is deactivated (it is removed on a later frame) and its
effect applied. -/
def processPowerups : List PowerUp → Bird → ℚ → ℚ → ℚ → ℚ →
    List PowerUp × ℚ × ℚ
  | [], _, _, _, su, du => ([], su, du)
  | p :: rest, bird, speed, now, su, du =>
    let p1 := p.move speed
    if p1.active then
      if p1.checkCollide bird then
        let eff := applyPowerupEffect p1.kind now su du
        let t := processPowerups rest bird speed now eff.1 eff.2
        ({ p1 with active := false } :: t.1, t.2)
      else
        let t := processPowerups rest bird speed now su du
        (p1 :: t.1, t.2)
    else
      processPowerups rest bird speed now su du

/-- The mutable state of `NoisyBird.play` that the per-frame loop body
touches (src/main.py lines 373-482). -/
structure GameState where
  bird : Bird
  score : ℕ
  blocks : List Block
  powerups : List PowerUp
  block_speed : ℚ
  block_w : ℤ
  block_gap : ℤ
  spawn_timer : ℚ
  spawn_interval : ℚ
  slow_until : ℚ
  double_until : ℚ
  paused : Bool
  sensitivity : ℚ
  last : ℚ
  highscore : ℕ
  running : Bool
deriving Repr, DecidableEq

/-- The oracle inputs of one frame: current wall-clock time, the latest
raw microphone volume, and the frame's random draws. -/
structure FrameInput where
  now : ℚ
  volume : ℚ
  spawnTopH : ℤ
  spawnPU : Bool
  puKind : String
  puY : ℤ
deriving Repr, DecidableEq

/-- One iteration of the `while running` loop of `NoisyBird.play`
(src/main.py lines 387-482), with no keyboard event processed.
`dt` is accumulated and `last` updated before the pause check; a paused
frame only draws and `continue`s.  An unpaused frame: mic flap test on
the raw volume, bird physics, spawn-timer accumulation and spawning,
scroll-speed selection, the obstacle loop (a collision sets
`running = False` and breaks out of that loop only), the power-up loop,
and the out-of-bounds check. -/
def playFrame (st : GameState) (inp : FrameInput) : GameState :=
  let dt := inp.now - st.last
  if st.paused then
    { st with last := inp.now }
  else
    let bird := (if micFlapDecision inp.volume st.sensitivity then
                   st.bird.flap else st.bird).step
    let timer0 := st.spawn_timer + dt
    let doSpawn := decide (timer0 > st.spawn_interval)
    let timer := if doSpawn then 0 else timer0
    let blocks0 := if doSpawn then
        st.blocks ++ [⟨(WIDTH : ℚ) + 20, st.block_w, inp.spawnTopH, st.block_gap, false⟩]
      else st.blocks
    let powerups0 := if doSpawn && inp.spawnPU then
        st.powerups ++ [mkPowerUp inp.puKind ((WIDTH : ℚ) + 50) inp.puY]
      else st.powerups
    let speed := st.block_speed * (if inp.now < st.slow_until then (1/2 : ℚ) else 1)
    let pts : ℕ := if inp.now < st.double_until then 2 else 1
    let bres := processBlocks blocks0 bird speed pts
    let pres := processPowerups powerups0 bird speed inp.now st.slow_until st.double_until
    let out := bird.is_out HEIGHT
    { st with
      bird := bird
      score := st.score + bres.2.1
      blocks := bres.1
      powerups := pres.1
      spawn_timer := timer
      slow_until := pres.2.1
      double_until := pres.2.2
      last := inp.now
      running := st.running && !(bres.2.2 || out) }

/-- The round-end highscore update of src/main.py lines 484-486:
the new stored highscore, and whether it was overwritten. -/
def roundEndHigh (score high : ℕ) : ℕ × Bool :=
  if high < score then (score, true) else (high, false)

/-- The interiors of two axis-aligned boxes `(x, y, w, h)` share a
point, axis by axis (the spec's notion of two boxes overlapping). -/
def rectOverlapQ (ax ay aw ah cx cy cw ch : ℚ) : Prop :=
  ((Set.Ioo ax (ax + aw)) ∩ (Set.Ioo cx (cx + cw))).Nonempty ∧
  ((Set.Ioo ay (ay + ah)) ∩ (Set.Ioo cy (cy + ch))).Nonempty

/-- Iterate `Block.move` with a fixed speed `n` times. -/
def moveN (b : Block) (speed : ℚ) : ℕ → Block
  | 0 => b
  | n + 1 => (moveN b speed n).move speed

/-! ## Concrete instances used by witnesses and counterexamples -/

/-- A fresh play-loop state as set up at the top of `NoisyBird.play`,
with the settings-file default sensitivity `0.6`. -/
def st0 : GameState :=
  { bird := mkBird 150 200, score := 0, blocks := [], powerups := []
    block_speed := 3, block_w := 60, block_gap := 120
    spawn_timer := 0, spawn_interval := 9/5
    slow_until := 0, double_until := 0
    paused := false, sensitivity := 6/10
    last := 0, highscore := 0, running := true }

/-- The same state with the pause flag set. -/
def stPaused : GameState := { st0 with paused := true }

/-- A frame input whose raw volume is `0.15`. -/
def inp015 : FrameInput := ⟨1/60, 15/100, 100, false, "slow", 200⟩

/-- A bird resting exactly on `y = HEIGHT`, inside the spec's
`y ≤ H + h` band but past the code's `y > H - h` bound. -/
def birdAtBottom : Bird := ⟨150, 500, 40, 30, 0, 1/2, 8, 12⟩

/-- The obstacle of the spec's off-screen scenario:
spawned at `x = 880` with width `70`. -/
def blkC4 : Block := ⟨880, 70, 100, 120, false⟩

/-- An obstacle with top segment height `100` and gap `120`. -/
def bl8 : Block := ⟨100, 60, 100, 120, false⟩

/-- A bird wholly inside the gap band of `bl8`. -/
def b8gap : Bird := ⟨120, 150, 40, 30, 0, 1/2, 8, 12⟩

/-- A bird overlapping the top segment of `bl8`. -/
def b8top : Bird := ⟨120, 50, 40, 30, 0, 1/2, 8, 12⟩

/-- A bird overlapping the bottom segment of `bl8`. -/
def b8bot : Bird := ⟨120, 400, 40, 30, 0, 1/2, 8, 12⟩

/-- An obstacle at the fractional position `x = 9.95`. -/
def blCE8 : Block := ⟨199/20, 60, 100, 120, false⟩

/-- A bird at `x = 69`: its box overlaps the top segment of `blCE8` by
the sub-unit sliver `(69, 69.95)`, which `int()` truncation erases. -/
def bCE8 : Bird := ⟨69, 50, 40, 30, 0, 1/2, 8, 12⟩

/-! ## Helper lemmas -/

theorem int_le_pyTrunc {n : ℤ} {q : ℚ} (h : (n : ℚ) ≤ q) : n ≤ pyTrunc q := by
  unfold pyTrunc
  split
  · exact Int.le_floor.mpr h
  · have hq : q ≤ (⌈q⌉ : ℚ) := Int.le_ceil q
    exact_mod_cast le_trans h hq

theorem pyTrunc_le {q : ℚ} {n : ℤ} (h : q ≤ (n : ℚ)) : pyTrunc q ≤ n := by
  unfold pyTrunc
  split
  · have hq : (⌊q⌋ : ℚ) ≤ q := Int.floor_le q
    exact_mod_cast le_trans hq h
  · exact Int.ceil_le.mpr h

theorem Ioo_inter_bounds {a b c d : ℚ}
    (h : (Set.Ioo a b ∩ Set.Ioo c d).Nonempty) : a < d ∧ c < b := by
  obtain ⟨q, ⟨h1, h2⟩, ⟨h3, h4⟩⟩ := h
  exact ⟨lt_trans h1 h4, lt_trans h3 h2⟩

theorem moveN_x (b : Block) (s : ℚ) (n : ℕ) :
    (moveN b s n).x = b.x - s * n := by
  induction n with
  | zero => simp [moveN]
  | succ k ih => simp [moveN, Block.move, ih]; ring

theorem moveN_w (b : Block) (s : ℚ) (n : ℕ) : (moveN b s n).w = b.w := by
  induction n with
  | zero => rfl
  | succ k ih => simp [moveN, Block.move, ih]

/-! ## Claim theorems -/

/-- C3 counterexample: with the play height `500` and bird height `30`,
a bird at `y = 500` is reported out of bounds by the code, yet the
claim's predicate `y < -h ∨ y > H + h` is false there. -/
theorem bird_is_out_claim_false :
    Bird.is_out birdAtBottom 500 = true ∧
      ¬(birdAtBottom.y < -(birdAtBottom.h : ℚ) ∨
        birdAtBottom.y > (500 : ℚ) + (birdAtBottom.h : ℚ)) := by
  constructor
  · norm_num [Bird.is_out, birdAtBottom]
  · norm_num [birdAtBottom]

/-- C3 amended: `is_out` returns true iff the bird is above the top of
the play area by more than its own height (`y < -h`) or its position
exceeds the play height minus its own height (`y > H - h`, i.e. its
bottom edge is below the bottom of the play area). -/
theorem bird_is_out_iff (b : Bird) (H : ℤ) :
    b.is_out H = true ↔
      (b.y < -(b.h : ℚ) ∨ b.y > (H : ℚ) - (b.h : ℚ)) := by
  simp [Bird.is_out]

/-- C4 counterexample: after exactly `320` move steps of `3.0` the
trailing edge of the obstacle spawned at `x = 880` with width `70`
sits at exactly `-10`, and the strict test `x + w < -10` is false. -/
theorem block_offscreen_320_not_yet :
    (moveN blkC4 3 320).off_screen = false := by
  have hx := moveN_x blkC4 3 320
  have hw := moveN_w blkC4 3 320
  simp only [Block.off_screen, hx, hw]
  norm_num [blkC4]

/-- C4 amended: the obstacle spawned at `x = 880` with width `70`,
moved leftward by `3.0` units per step, first satisfies the off-screen
predicate (`x + w < -10`) after exactly `321` move steps. -/
theorem block_offscreen_at_321 (n : ℕ) :
    (moveN blkC4 3 n).off_screen = true ↔ 321 ≤ n := by
  have hx := moveN_x blkC4 3 n
  have hw := moveN_w blkC4 3 n
  simp only [Block.off_screen, hx, hw, decide_eq_true_eq]
  have hcast : (880 : ℚ) - 3 * (n : ℚ) + (70 : ℤ) < -10 ↔ (320 : ℚ) < (n : ℚ) := by
    push_cast
    constructor <;> intro h <;> linarith
  rw [show blkC4.x = (880 : ℚ) from rfl, show blkC4.w = (70 : ℤ) from rfl]
  rw [hcast]
  constructor <;> intro h
  · have : (320 : ℕ) < n := by exact_mod_cast h
    omega
  · have : (320 : ℕ) < n := by omega
    exact_mod_cast this

/-- C6: the power-up effect handler sets `slow_until` to exactly
`now + 4.0` on a slow pickup and `double_until` to exactly `now + 5.0`
on a double pickup, in each case overwriting (not adding to) the
previous expiry, so a second collection at time `u` leaves the expiry
at `u + 4` (resp. `u + 5`). -/
theorem powerup_effect_replaces (t u s d : ℚ) :
    applyPowerupEffect "slow" t s d = (t + 4, d) ∧
    applyPowerupEffect "double" t s d = (s, t + 5) ∧
    (applyPowerupEffect "slow" u (applyPowerupEffect "slow" t s d).1
        (applyPowerupEffect "slow" t s d).2).1 = u + 4 ∧
    (applyPowerupEffect "double" u (applyPowerupEffect "double" t s d).1
        (applyPowerupEffect "double" t s d).2).2 = u + 5 := by
  have hne : ("double" : String) ≠ "slow" := by decide
  refine ⟨?_, ?_, ?_, ?_⟩ <;> simp [applyPowerupEffect, hne]

/-- C7: at round end the stored highscore is overwritten exactly when
the round's score strictly exceeds it, and is left unchanged
otherwise. -/
theorem highscore_update (s h : ℕ) :
    ((roundEndHigh s h).2 = true ↔ h < s) ∧
    (h < s → (roundEndHigh s h).1 = s) ∧
    (¬h < s → (roundEndHigh s h).1 = h) := by
  unfold roundEndHigh
  by_cases hc : h < s <;> simp [hc]

/-- C7 witness: a round ending at score 5 overwrites a stored
highscore of 3; a round ending at score 2 leaves a stored highscore
of 7 unchanged. -/
theorem highscore_update_w :
    ((roundEndHigh 5 3).2 = true ↔ 3 < 5) ∧
    (roundEndHigh 5 3).1 = 5 ∧ (roundEndHigh 2 7).1 = 7 :=
  ⟨(highscore_update 5 3).1,
   (highscore_update 5 3).2.1 (by decide),
   (highscore_update 2 7).2.2 (by decide)⟩

/-- C9: constructing a power-up with an unknown kind string falls back
to kind `slow`; a valid kind is kept; the new power-up is active. -/
theorem powerup_kind_fallback (kind : String) (x : ℚ) (y : ℤ) :
    (kind ≠ "slow" ∧ kind ≠ "double" → (mkPowerUp kind x y).kind = "slow") ∧
    (kind = "slow" ∨ kind = "double" → (mkPowerUp kind x y).kind = kind) ∧
    (mkPowerUp kind x y).active = true := by
  refine ⟨fun hne => ?_, fun hin => ?_, rfl⟩
  · simp [mkPowerUp, PowerUp.TYPES, hne.1, hne.2]
  · have hm : kind ∈ PowerUp.TYPES := by
      rcases hin with h | h <;> simp [PowerUp.TYPES, h]
    simp [mkPowerUp, hm]

/-- C9 witness: kind `boost` is coerced to `slow`, kind `double` is
kept, and the constructed power-up is active. -/
theorem powerup_kind_fallback_w :
    (mkPowerUp "boost" 0 0).kind = "slow" ∧
    (mkPowerUp "double" 0 0).kind = "double" ∧
    (mkPowerUp "boost" 0 0).active = true :=
  ⟨(powerup_kind_fallback "boost" 0 0).1 ⟨by decide, by decide⟩,
   (powerup_kind_fallback "double" 0 0).2.1 (Or.inr rfl),
   (powerup_kind_fallback "boost" 0 0).2.2⟩

theorem volumeSmoother_add_history (K : ℕ) (h : List ℚ) (x : ℚ) :
    (VolumeSmoother.add ⟨K, h⟩ x).history =
      if K < (h ++ [x]).length then (h ++ [x]).drop 1 else h ++ [x] := rfl

theorem volumeSmoother_addAll_history (K : ℕ) (hK : 1 ≤ K) :
    ∀ (xs h : List ℚ), h.length ≤ K →
      (VolumeSmoother.addAll ⟨K, h⟩ xs).history =
        (h ++ xs).drop ((h ++ xs).length - K) := by
  intro xs
  induction xs with
  | nil =>
    intro h hl
    have hz : h.length - K = 0 := by omega
    simp [VolumeSmoother.addAll, hz]
  | cons x rest ih =>
    intro h hl
    have hstep : VolumeSmoother.addAll ⟨K, h⟩ (x :: rest) =
        VolumeSmoother.addAll (VolumeSmoother.add ⟨K, h⟩ x) rest := rfl
    rcases lt_or_eq_of_le hl with hlt | heq
    · -- room left in the window: no eviction
      have hcond : ¬ K < h.length + 1 := by omega
      have hadd : VolumeSmoother.add ⟨K, h⟩ x = ⟨K, h ++ [x]⟩ := by
        unfold VolumeSmoother.add
        simp [hcond]
      have hlen : (h ++ [x]).length ≤ K := by
        simp only [List.length_append, List.length_cons, List.length_nil]
        omega
      rw [hstep, hadd, ih (h ++ [x]) hlen]
      simp
    · -- window full: the oldest sample is evicted
      have hcond : K < h.length + 1 := by omega
      have hadd : VolumeSmoother.add ⟨K, h⟩ x = ⟨K, (h ++ [x]).drop 1⟩ := by
        unfold VolumeSmoother.add
        simp [hcond]
      have hlen : ((h ++ [x]).drop 1).length ≤ K := by
        simp only [List.length_drop, List.length_append, List.length_cons,
          List.length_nil]
        omega
      rw [hstep, hadd, ih _ hlen]
      have hone : (1 : ℕ) ≤ (h ++ [x]).length := by
        simp only [List.length_append, List.length_cons, List.length_nil]
        omega
      rw [← List.drop_append_of_le_length hone, List.drop_drop]
      have harr : (h ++ [x]) ++ rest = h ++ x :: rest := by simp
      rw [harr]
      congr 1
      simp only [List.length_drop, List.length_append, List.length_cons,
        List.length_nil]
      omega

/-- C2: feeding any sample sequence into a `VolumeSmoother`, `smooth()`
equals the arithmetic mean of the last `min(i, K)` samples (the suffix
`xs.drop (xs.length - K)`), where `K` is the smoother's window capacity
(`max 1 window` per the constructor); a smoother with no samples added
returns exactly `0`.  Instantiating `xs` with each prefix of a sample
stream gives the claim's statement after every `add`. -/
theorem volumeSmoother_mean (w : ℤ) (xs : List ℚ) :
    ((mkVolumeSmoother w).addAll xs).smooth =
      listMean (xs.drop (xs.length - (mkVolumeSmoother w).window)) ∧
    (mkVolumeSmoother w).smooth = 0 := by
  constructor
  · have h1 : (1 : ℤ) ≤ max 1 w := le_max_left 1 w
    have hK : 1 ≤ (max 1 w).toNat := by omega
    have hh := volumeSmoother_addAll_history (max 1 w).toNat hK xs []
      (by simp)
    have hmk : mkVolumeSmoother w = ⟨(max 1 w).toNat, []⟩ := rfl
    have hsm : ∀ s : VolumeSmoother, s.smooth = listMean s.history :=
      fun s => rfl
    rw [hmk, hsm, hh]
    simp [listMean]
  · rfl

theorem scoreBlock_of_passed (b : Block) (x : ℚ) (h : b.passed = true) :
    scoreBlock b x = (b, false) := by
  simp [scoreBlock, h]

theorem scoreBlock_scored_passed (b : Block) (x : ℚ)
    (h : (scoreBlock b x).2 = true) : (scoreBlock b x).1.passed = true := by
  unfold scoreBlock at h ⊢
  split at h
  · split
    · rfl
    · simp_all
  · simp_all

theorem blockFrame_of_passed (b : Block) (s x : ℚ) (h : b.passed = true) :
    blockFrame b s x = (b.move s, false) := by
  unfold blockFrame
  exact scoreBlock_of_passed _ _ (by simpa [Block.move] using h)

/-- C5: an obstacle's `passed` flag, once true, stays true for the rest
of the round, and across any sequence of frames (each moving the block
and running the scoring update of src/main.py lines 436-439) the
scoring branch fires at most once. -/
theorem block_scoring_once (b : Block) (L : List (ℚ × ℚ)) :
    (blockRun b L).2 ≤ 1 ∧
    (b.passed = true →
      (blockRun b L).1.passed = true ∧ (blockRun b L).2 = 0) := by
  induction L generalizing b with
  | nil => exact ⟨Nat.zero_le 1, fun h => ⟨h, rfl⟩⟩
  | cons p rest ih =>
    constructor
    · by_cases hs : (blockFrame b p.1 p.2).2 = true
      · have hp : (blockFrame b p.1 p.2).1.passed = true := by
          unfold blockFrame at hs ⊢
          exact scoreBlock_scored_passed _ _ hs
        have h0 := (ih (blockFrame b p.1 p.2).1).2 hp
        simp [blockRun, hs, h0.2]
      · have hb := (ih (blockFrame b p.1 p.2).1).1
        simp only [Bool.not_eq_true] at hs
        simp [blockRun, hs]
        omega
    · intro h
      have hbf := blockFrame_of_passed b p.1 p.2 h
      have h1 : (blockFrame b p.1 p.2).1.passed = true := by
        rw [hbf]
        simpa [Block.move] using h
      have h2 := (ih (blockFrame b p.1 p.2).1).2 h1
      have h2' := h2
      rw [hbf] at h2'
      constructor
      · simpa [blockRun] using h2.1
      · simp [blockRun, hbf, h2'.2]

/-- C5 witness: a block already passed neither scores again nor loses
its flag over a further frame. -/
theorem block_scoring_once_w :
    (blockRun ⟨0, 60, 100, 120, true⟩ [(3, 150)]).2 ≤ 1 ∧
    ((blockRun ⟨0, 60, 100, 120, true⟩ [(3, 150)]).1.passed = true ∧
     (blockRun ⟨0, 60, 100, 120, true⟩ [(3, 150)]).2 = 0) :=
  ⟨(block_scoring_once ⟨0, 60, 100, 120, true⟩ [(3, 150)]).1,
   (block_scoring_once ⟨0, 60, 100, 120, true⟩ [(3, 150)]).2 rfl⟩

/-- C10: a paused frame of the play loop (with no keyboard event)
leaves all gameplay state unchanged: bird (position and velocity),
score, obstacle and power-up collections, spawn timer, and both
power-up expiry times. -/
theorem paused_frame_noop (st : GameState) (inp : FrameInput)
    (hp : st.paused = true) :
    (playFrame st inp).bird = st.bird ∧
    (playFrame st inp).score = st.score ∧
    (playFrame st inp).blocks = st.blocks ∧
    (playFrame st inp).powerups = st.powerups ∧
    (playFrame st inp).spawn_timer = st.spawn_timer ∧
    (playFrame st inp).slow_until = st.slow_until ∧
    (playFrame st inp).double_until = st.double_until := by
  have h : playFrame st inp = { st with last := inp.now } := by
    unfold playFrame
    rw [hp]
    simp
  rw [h]
  exact ⟨rfl, rfl, rfl, rfl, rfl, rfl, rfl⟩

/-- C10 witness: the paused start state is untouched by a frame. -/
theorem paused_frame_noop_w :
    (playFrame stPaused inp015).bird = stPaused.bird ∧
    (playFrame stPaused inp015).score = stPaused.score ∧
    (playFrame stPaused inp015).blocks = stPaused.blocks ∧
    (playFrame stPaused inp015).powerups = stPaused.powerups ∧
    (playFrame stPaused inp015).spawn_timer = stPaused.spawn_timer ∧
    (playFrame stPaused inp015).slow_until = stPaused.slow_until ∧
    (playFrame stPaused inp015).double_until = stPaused.double_until :=
  paused_frame_noop stPaused inp015 rfl

/-- C1 counterexample: in the play loop of src/main.py the flap test is
`volume * sensitivity > 1.0` on the raw latest volume — there is no
smoothing and the settings key `mic_threshold` is never consulted.
With the configured sensitivity `0.6` and a volume of `0.15`
(`0.15 * 0.6 = 0.09 > 0.07`), the claim requires a flap, but the frame
leaves the bird un-flapped (`playFrame` merely steps it). -/
theorem mic_flap_claim_false :
    st0.sensitivity = 6/10 ∧ inp015.volume = 15/100 ∧
    (playFrame st0 inp015).bird = Bird.step st0.bird ∧
    Bird.step st0.bird ≠ Bird.step (Bird.flap st0.bird) := by
  refine ⟨rfl, rfl, ?_, ?_⟩
  · norm_num [playFrame, micFlapDecision, processBlocks, processPowerups,
      st0, inp015, mkBird]
  · simp only [Bird.step, Bird.flap, pyClamp, st0, mkBird, ne_eq,
      Bird.mk.injEq]
    norm_num

/-- C1 amended: on every unpaused frame of the play loop, the
microphone path flaps the bird iff the raw latest volume multiplied by
the configured sensitivity exceeds the hardcoded threshold `1.0`
(`volume * sensitivity > 1.0`); no smoothing and no `mic_threshold`
are involved, so with sensitivity `0.6` raw volumes `0.10` and `0.15`
both cause no flap. -/
theorem mic_flap_iff (st : GameState) (inp : FrameInput) (v s : ℚ)
    (hp : st.paused = false) :
    (playFrame st inp).bird =
      Bird.step (if micFlapDecision inp.volume st.sensitivity then
        st.bird.flap else st.bird) ∧
    (micFlapDecision v s = true ↔ v * s > 1) ∧
    micFlapDecision (10/100) (6/10) = false ∧
    micFlapDecision (15/100) (6/10) = false := by
  refine ⟨?_, by simp [micFlapDecision], by norm_num [micFlapDecision],
    by norm_num [micFlapDecision]⟩
  unfold playFrame
  rw [hp]
  rfl

/-- C1 witness: the fresh round state with sensitivity `0.6` and a
frame whose raw volume is `0.15`. -/
theorem mic_flap_iff_w :
    (playFrame st0 inp015).bird =
      Bird.step (if micFlapDecision inp015.volume st0.sensitivity then
        st0.bird.flap else st0.bird) ∧
    (micFlapDecision (5/3) 1 = true ↔ (5/3 : ℚ) * 1 > 1) ∧
    micFlapDecision (10/100) (6/10) = false ∧
    micFlapDecision (15/100) (6/10) = false :=
  mic_flap_iff st0 inp015 (5/3) 1 rfl

/-- C8 counterexample: the collision test truncates coordinates with
`int()`, so a real-coordinate overlap sliver narrower than one unit can
be erased.  The bird box `(69, 50, 40, 30)` overlaps the top segment of
the obstacle at `x = 9.95` (width 60, top height 100) on the x-sliver
`(69, 69.95)`, yet `collide_with` returns false. -/
theorem block_collision_claim_false :
    rectOverlapQ bCE8.x bCE8.y (bCE8.w : ℚ) (bCE8.h : ℚ)
        blCE8.x 0 (blCE8.w : ℚ) (blCE8.top_h : ℚ) ∧
    blCE8.collide_with bCE8 = false := by
  constructor
  · constructor
    · exact ⟨139/2, ⟨by norm_num [bCE8], by norm_num [bCE8]⟩,
        ⟨by norm_num [blCE8], by norm_num [blCE8]⟩⟩
    · exact ⟨60, ⟨by norm_num [bCE8], by norm_num [bCE8]⟩,
        ⟨by norm_num [blCE8], by norm_num [blCE8]⟩⟩
  · simp only [Block.collide_with, rectsCollide, Bool.or_eq_false_iff,
      decide_eq_false_iff_not]
    norm_num [pyTrunc, blCE8, bCE8]

/-- C8 amended: a bird box lying entirely within the gap band (between
the bottom of the top segment and the top of the bottom segment) never
collides; and whenever the integer-truncated boxes the code actually
constructs overlap (interiors share a point), the collision test
returns true.  (With fractional coordinates, an overlap sliver narrower
than one unit can be lost to `int()` truncation.) -/
theorem block_collision_correct (bl : Block) (b : Bird) :
    ((bl.top_h : ℚ) ≤ b.y ∧ b.y + (b.h : ℚ) ≤ (bl.top_h : ℚ) + (bl.gap : ℚ) →
      bl.collide_with b = false) ∧
    (rectOverlapQ ((pyTrunc b.x : ℤ) : ℚ) ((pyTrunc b.y : ℤ) : ℚ)
        (b.w : ℚ) (b.h : ℚ)
        ((pyTrunc bl.x : ℤ) : ℚ) 0 (bl.w : ℚ) (bl.top_h : ℚ) →
      bl.collide_with b = true) ∧
    (rectOverlapQ ((pyTrunc b.x : ℤ) : ℚ) ((pyTrunc b.y : ℤ) : ℚ)
        (b.w : ℚ) (b.h : ℚ)
        ((pyTrunc bl.x : ℤ) : ℚ) ((bl.top_h : ℚ) + (bl.gap : ℚ))
        (bl.w : ℚ) 1000000 →
      bl.collide_with b = true) := by
  refine ⟨fun hband => ?_, fun hover => ?_, fun hover => ?_⟩
  · obtain ⟨h1, h2⟩ := hband
    have ht : bl.top_h ≤ pyTrunc b.y := int_le_pyTrunc h1
    have hb2 : pyTrunc b.y ≤ bl.top_h + bl.gap - b.h := by
      apply pyTrunc_le
      push_cast
      linarith
    unfold Block.collide_with rectsCollide
    simp only [Bool.or_eq_false_iff, decide_eq_false_iff_not]
    constructor
    · rintro ⟨hc1, hc2, hc3, hc4⟩
      omega
    · rintro ⟨hc1, hc2, hc3, hc4⟩
      omega
  · obtain ⟨hx, hy⟩ := hover
    obtain ⟨hx1, hx2⟩ := Ioo_inter_bounds hx
    obtain ⟨hy1, hy2⟩ := Ioo_inter_bounds hy
    unfold Block.collide_with rectsCollide
    simp only [Bool.or_eq_true, decide_eq_true_eq]
    left
    refine ⟨by exact_mod_cast hx1, by exact_mod_cast hy1,
      by exact_mod_cast hx2, by exact_mod_cast hy2⟩
  · obtain ⟨hx, hy⟩ := hover
    obtain ⟨hx1, hx2⟩ := Ioo_inter_bounds hx
    obtain ⟨hy1, hy2⟩ := Ioo_inter_bounds hy
    unfold Block.collide_with rectsCollide
    simp only [Bool.or_eq_true, decide_eq_true_eq]
    right
    refine ⟨by exact_mod_cast hx1, by exact_mod_cast hy1,
      by exact_mod_cast hx2, by exact_mod_cast hy2⟩

/-- C8 witness: against the obstacle `bl8` (top height 100, gap 120),
a bird inside the gap band does not collide, while birds overlapping
the top and the bottom segments do. -/
theorem block_collision_correct_w :
    bl8.collide_with b8gap = false ∧
    bl8.collide_with b8top = true ∧
    bl8.collide_with b8bot = true := by
  refine ⟨(block_collision_correct bl8 b8gap).1
      ⟨by norm_num [bl8, b8gap], by norm_num [bl8, b8gap]⟩,
    (block_collision_correct bl8 b8top).2.1 ⟨?_, ?_⟩,
    (block_collision_correct bl8 b8bot).2.2 ⟨?_, ?_⟩⟩
  · exact ⟨130, ⟨by norm_num [b8top, pyTrunc], by norm_num [b8top, pyTrunc]⟩,
      ⟨by norm_num [bl8, pyTrunc], by norm_num [bl8, pyTrunc]⟩⟩
  · exact ⟨60, ⟨by norm_num [b8top, pyTrunc], by norm_num [b8top, pyTrunc]⟩,
      ⟨by norm_num [bl8], by norm_num [bl8]⟩⟩
  · exact ⟨130, ⟨by norm_num [b8bot, pyTrunc], by norm_num [b8bot, pyTrunc]⟩,
      ⟨by norm_num [bl8, pyTrunc], by norm_num [bl8, pyTrunc]⟩⟩
  · exact ⟨410, ⟨by norm_num [b8bot, pyTrunc], by norm_num [b8bot, pyTrunc]⟩,
      ⟨by norm_num [bl8], by norm_num [bl8]⟩⟩
